import Mathlib

/-!
Shallow embedding of `main.go` of ispconfig-traefik-dnschallenge.

The program is an ACME DNS-01 helper for the ISPConfig control-panel API.
It performs a sequence of JSON-over-HTTP calls; here each remote endpoint's
behaviour is a parameter (the `Env` structure below supplies, per endpoint,
either a transport error or an HTTP status code paired with the decoded
body / a decode failure).  Each embedded function returns the list of
requests it issued (in order) together with a `GoResult` outcome; Go slice
indexing out of range is modelled by the explicit `GoResult.panic`
constructor.  Wall-clock readings (`time.Now().Unix()` and the formatted
local timestamp in `addTxt`) are taken as explicit arguments.
-/

set_option autoImplicit false

namespace ISPC

/-- Outcome of one of the Go functions: a value, an `error` return carrying
the exact message string the Go code builds, or a runtime panic. -/
inductive GoResult (α : Type) where
  | ok (a : α)
  | err (msg : String)
  | panic (msg : String)
  deriving DecidableEq, Repr

/-- Behaviour of one remote endpoint, as seen through `http.Post` followed by
a JSON decode: a network-level failure, or a response with an HTTP status
code whose body either decodes to `β` or fails to decode. -/
inductive Remote (β : Type) where
  | netErr (msg : String)
  | resp (status : Nat) (body : Except String β)

/-- Go `loginResponse`: `{code, response string}`. -/
structure loginResponse where
  code : String
  response : String
  deriving DecidableEq, Repr

/-- Go `zoneInfoResponse`: `{ID, ServerID, SysUserID string; ClientId int}`. -/
structure zoneInfoResponse where
  ID : String
  ServerID : String
  SysUserID : String
  ClientId : Int
  deriving DecidableEq, Repr

/-- Go `zoneApiResponse`: `{Code, Message string; Response []zoneInfoResponse}`. -/
structure zoneApiResponse where
  code : String
  message : String
  response : List zoneInfoResponse
  deriving DecidableEq, Repr

/-- A decoded JSON value, for the endpoints Go decodes into
`map[string]interface{}` and then inspects with type assertions. -/
inductive JVal where
  | str (s : String)
  | num (n : Int)
  | bool (b : Bool)
  | arr (xs : List JVal)
  | obj (fs : List (String × JVal))
  | null

/-- Go `response[k]` on a decoded `map[string]interface{}`. -/
def jLookup (m : List (String × JVal)) (k : String) : Option JVal :=
  (m.find? (fun p => p.1 == k)).map (fun p => p.2)

/-- Go type assertion `v.(string)` (on a possibly-absent map entry). -/
def asString : Option JVal → Option String
  | some (JVal.str s) => some s
  | _ => none

/-- Go type assertion `v.([]interface{})` (on a possibly-absent map entry). -/
def asArr : Option JVal → Option (List JVal)
  | some (JVal.arr xs) => some xs
  | _ => none

/-- Go type assertion `v.(map[string]interface{})` on a JSON value. -/
def asObj : JVal → Option (List (String × JVal))
  | JVal.obj fs => some fs
  | _ => none

/-- The `params` map built by Go `addTxt` for the `dns_txt_add` call. -/
structure TxtParams where
  server_id : String
  zone : String
  name : String
  type : String
  data : String
  aux : String
  ttl : String
  active : String
  stamp : String
  serial : String
  deriving DecidableEq, Repr

/-- One outbound request, identified by its endpoint and the payload fields
of its JSON body. -/
inductive Req where
  | login (username password : String)
  | dnsZoneGet (sessionId origin : String)
  | clientGetId (sessionId sys_userid : String)
  | dnsTxtAdd (sessionId : String) (clientId : Int) (params : TxtParams)
      (update_serial : Bool)
  | dnsTxtGet (sessionId name ty : String)
  | dnsTxtDelete (sessionId recordId : String) (update_serial : Bool)
  deriving DecidableEq, Repr

/-- The environment of one program run: the credential configuration read
from the process environment, and the behaviour of each remote endpoint. -/
structure Env where
  ISPCUser : String
  ISPCPassword : String
  loginR : Remote loginResponse
  dnsZoneGetR : Remote zoneApiResponse
  clientGetIdR : Remote Int
  dnsTxtAddR : Remote (List (String × JVal))
  dnsTxtGetR : Remote (List (String × JVal))
  dnsTxtDeleteR : Remote (List (String × JVal))

/-- Split a character list at every occurrence of `c`.  `splitChar c []`
is `[[]]`, so on strings this agrees with Go `strings.Split` (splitting
the empty string yields one empty field, and `n` separators yield `n + 1`
fields). -/
def splitChar (c : Char) : List Char → List (List Char)
  | [] => [[]]
  | x :: xs =>
    if x == c then [] :: splitChar c xs
    else
      match splitChar c xs with
      | [] => [[x]]
      | y :: ys => (x :: y) :: ys

/-- Go `strings.Split(s, ".")`. -/
def splitDot (s : String) : List String :=
  (splitChar '.' s.data).map String.mk

/-- Go `strings.Trim(s, cutset)` for a one-character cutset: remove all
leading and all trailing occurrences of `c`. -/
def trimChar (s : String) (c : Char) : String :=
  String.mk (((s.data.dropWhile (fun x => x == c)).reverse.dropWhile
    (fun x => x == c)).reverse)

/-- Go `login`: POST to `?login`, decode into `loginResponse`, require
`code == "ok"`, return the `response` field with surrounding `"` characters
trimmed.  Note: the Go code performs no HTTP status check on this call. -/
def login (env : Env) : List Req × GoResult String :=
  let tr := [Req.login env.ISPCUser env.ISPCPassword]
  match env.loginR with
  | Remote.netErr m => (tr, GoResult.err m)
  | Remote.resp _status body =>
    match body with
    | Except.error m => (tr, GoResult.err m)
    | Except.ok r =>
      if r.code != "ok" then (tr, GoResult.err "failed to retrieve session ID")
      else (tr, GoResult.ok (trimChar r.response '\"'))

/-- Go `getZoneInfo`: split the domain on `"."`; reject fewer than 2 parts;
index `parts[len(parts)-3]` and `parts[len(parts)-2]` (which panics when
`len(parts) == 2`, since Go computes the index `-1`); POST the apex
candidate to `?dns_zone_get`; read `Response[0]` (which panics on an empty
list); then POST the captured `sys_userid` to `?client_get_id`. -/
def getZoneInfo (env : Env) (sessionId domain : String) :
    List Req × GoResult zoneInfoResponse :=
  let parts := splitDot domain
  if parts.length < 2 then
    ([], GoResult.err "invalid domain format")
  else if parts.length < 3 then
    -- Go: `parts[len(parts)-3]` with `len(parts) == 2` indexes at -1
    ([], GoResult.panic "runtime error: index out of range")
  else
    let sld := parts.getD (parts.length - 3) ""
    let tld := parts.getD (parts.length - 2) ""
    let domainWithTLD := sld ++ "." ++ tld ++ "."
    let tr1 := [Req.dnsZoneGet sessionId domainWithTLD]
    match env.dnsZoneGetR with
    | Remote.netErr m => (tr1, GoResult.err m)
    | Remote.resp status body =>
      if status != 200 then
        (tr1, GoResult.err ("failed to retrieve zone information: " ++ toString status))
      else
        match body with
        | Except.error m => (tr1, GoResult.err m)
        | Except.ok z =>
          match z.response with
          | [] =>
            -- Go: `zoneInfoResp.Response[0]` on an empty slice
            (tr1, GoResult.panic "runtime error: index out of range")
          | e0 :: _ =>
            let ids :=
              if e0.ID != "" then (e0.ServerID, e0.ID, e0.SysUserID)
              else ("", "", "")
            let tr2 := tr1 ++ [Req.clientGetId sessionId ids.2.2]
            match env.clientGetIdR with
            | Remote.netErr m => (tr2, GoResult.err m)
            | Remote.resp st2 b2 =>
              if st2 != 200 then
                (tr2, GoResult.err ("failed to retrieve client ID: " ++ toString st2))
              else
                match b2 with
                | Except.error m => (tr2, GoResult.err m)
                | Except.ok cid =>
                  (tr2, GoResult.ok ⟨ids.2.1, ids.1, ids.2.2, cid⟩)

/-- The `params` map literal of Go `addTxt` (with `curSerial` and `curStamp`
already computed from the wall clock). -/
def addTxtParams (curSerial curStamp serverID zone fulldomain txtValue : String) :
    TxtParams :=
  { server_id := serverID
    zone := zone
    name := fulldomain
    type := "txt"
    data := txtValue
    aux := "0"
    ttl := "3600"
    active := "y"
    stamp := curStamp
    serial := curSerial }

/-- Go `addTxt`: POST the record parameters to `?dns_txt_add` with
`update_serial: true`; require HTTP status 200; decode the body into a map
and require the `response` entry to be a string — that string is the new
record ID.  `nowUnix` stands for `time.Now().Unix()` and `nowStamp` for the
formatted local timestamp. -/
def addTxt (env : Env) (nowUnix : Int) (nowStamp : String) (sessionID : String)
    (clientID : Int) (serverID zone fulldomain txtValue : String) :
    List Req × GoResult String :=
  let params := addTxtParams (toString nowUnix) nowStamp serverID zone fulldomain txtValue
  let tr := [Req.dnsTxtAdd sessionID clientID params true]
  match env.dnsTxtAddR with
  | Remote.netErr m => (tr, GoResult.err m)
  | Remote.resp status body =>
    if status != 200 then
      (tr, GoResult.err ("HTTP request failed with status code: " ++ toString status))
    else
      match body with
      | Except.error m => (tr, GoResult.err m)
      | Except.ok m =>
        match asString (jLookup m "response") with
        | some recordID => (tr, GoResult.ok recordID)
        | none => (tr, GoResult.err "failed to extract record ID from response")

/-- Go `removeTxt`: POST `{name, type: "TXT"}` to `?dns_txt_get`; require
HTTP 200; require `code == "ok"`; require a non-empty result list whose
first entry is an object with a string `id`; then POST that record ID to
`?dns_txt_delete` with `update_serial: true`; require HTTP 200 and
`code == "ok"`. -/
def removeTxt (env : Env) (sessionID fulldomain : String) :
    List Req × GoResult Unit :=
  let tr1 := [Req.dnsTxtGet sessionID fulldomain "TXT"]
  match env.dnsTxtGetR with
  | Remote.netErr m => (tr1, GoResult.err m)
  | Remote.resp status body =>
    if status != 200 then
      (tr1, GoResult.err ("HTTP request failed with status code: " ++ toString status))
    else
      match body with
      | Except.error m => (tr1, GoResult.err m)
      | Except.ok response =>
        if asString (jLookup response "code") == some "ok" then
          match asArr (jLookup response "response") with
          | none => (tr1, GoResult.err "No TXT record found")
          | some records =>
            match records with
            | [] => (tr1, GoResult.err "No TXT record found")
            | r0 :: _ =>
              match asObj r0 with
              | none => (tr1, GoResult.err "Invalid record format")
              | some record =>
                match asString (jLookup record "id") with
                | none => (tr1, GoResult.err "Failed to extract record ID")
                | some recordID =>
                  let tr2 := tr1 ++ [Req.dnsTxtDelete sessionID recordID true]
                  match env.dnsTxtDeleteR with
                  | Remote.netErr m => (tr2, GoResult.err m)
                  | Remote.resp st2 b2 =>
                    if st2 != 200 then
                      (tr2, GoResult.err
                        ("HTTP request failed with status code: " ++ toString st2))
                    else
                      match b2 with
                      | Except.error m => (tr2, GoResult.err m)
                      | Except.ok resp2 =>
                        if asString (jLookup resp2 "code") == some "ok" then
                          (tr2, GoResult.ok ())
                        else (tr2, GoResult.err "Failed to delete TXT record")
        else (tr1, GoResult.err "Failed to retrieve TXT record")

/-- Terminal outcome of the process: normal exit (code 0), `logger.Fatal`
(non-zero exit), or a runtime panic (non-zero exit). -/
inductive MainOutcome where
  | success
  | fatal (msg : String)
  | panicked (msg : String)
  deriving DecidableEq, Repr

/-- Go `main`: argument validation, then login, then `getZoneInfo`
(unconditionally, before the action switch), then the action switch
(`present` → `addTxt`, `cleanup` → `removeTxt`, anything else falls
through the switch and `main` returns normally).  `args` is `os.Args`,
so `args[0]` is the program name. -/
def main (env : Env) (nowUnix : Int) (nowStamp : String) (args : List String) :
    List Req × MainOutcome :=
  if args.length < 3 then
    ([], MainOutcome.fatal "Invalid number of arguments")
  else
    let action := args.getD 1 ""
    let domain := args.getD 2 ""
    if action == "present" && args.length < 4 then
      ([], MainOutcome.fatal "Not enough arguments for 'present' action")
    else if domain == "" then
      ([], MainOutcome.fatal "Empty domain")
    else
      let lres := login env
      match lres.2 with
      | GoResult.err _ => (lres.1, MainOutcome.fatal "Failed to login")
      | GoResult.panic m => (lres.1, MainOutcome.panicked m)
      | GoResult.ok sessionId =>
        let zres := getZoneInfo env sessionId domain
        match zres.2 with
        | GoResult.err _ => (lres.1 ++ zres.1, MainOutcome.fatal "Failed to get zone info")
        | GoResult.panic m => (lres.1 ++ zres.1, MainOutcome.panicked m)
        | GoResult.ok zoneInfo =>
          if action == "present" then
            -- `args[3]` is in range here: the `action == "present"` guard above
            -- already rejected argument lists shorter than 4
            let value := args.getD 3 ""
            let ares := addTxt env nowUnix nowStamp sessionId zoneInfo.ClientId
              zoneInfo.ServerID zoneInfo.ID domain value
            match ares.2 with
            | GoResult.err _ =>
              (lres.1 ++ zres.1 ++ ares.1, MainOutcome.fatal "Failed to add record")
            | GoResult.panic m => (lres.1 ++ zres.1 ++ ares.1, MainOutcome.panicked m)
            | GoResult.ok _ => (lres.1 ++ zres.1 ++ ares.1, MainOutcome.success)
          else if action == "cleanup" then
            let rres := removeTxt env sessionId domain
            match rres.2 with
            | GoResult.err _ =>
              (lres.1 ++ zres.1 ++ rres.1, MainOutcome.fatal "Failed to remove record")
            | GoResult.panic m => (lres.1 ++ zres.1 ++ rres.1, MainOutcome.panicked m)
            | GoResult.ok _ => (lres.1 ++ zres.1 ++ rres.1, MainOutcome.success)
          else
            (lres.1 ++ zres.1, MainOutcome.success)

/-- A run in which every endpoint answers HTTP 200 with a well-formed
successful body: login yields session `sess`, the zone lookup yields zone
`Z1` on server `S1` owned by user `U1`, the account lookup yields client
`42`, the record add yields record ID `REC-9`, the TXT lookup yields one
record with ID `R1`, and the delete succeeds. -/
def envOk : Env :=
  { ISPCUser := "u", ISPCPassword := "p"
    loginR := Remote.resp 200 (Except.ok ⟨"ok", "\"sess\""⟩)
    dnsZoneGetR := Remote.resp 200 (Except.ok ⟨"ok", "", [⟨"Z1", "S1", "U1", 0⟩]⟩)
    clientGetIdR := Remote.resp 200 (Except.ok 42)
    dnsTxtAddR := Remote.resp 200 (Except.ok [("response", JVal.str "REC-9")])
    dnsTxtGetR := Remote.resp 200 (Except.ok
      [("code", JVal.str "ok"),
       ("response", JVal.arr [JVal.obj [("id", JVal.str "R1")]])])
    dnsTxtDeleteR := Remote.resp 200 (Except.ok [("code", JVal.str "ok")]) }

/-- envOk with a zone-lookup body that decodes successfully but whose result
list is empty. -/
def envZoneEmptyList : Env :=
  { envOk with dnsZoneGetR := Remote.resp 200 (Except.ok ⟨"ok", "", []⟩) }

/-- envOk with a zone-lookup body whose single result entry has an empty ID
(the "zone not found" shape the code tolerates). -/
def envZoneEmptyID : Env :=
  { envOk with dnsZoneGetR := Remote.resp 200 (Except.ok ⟨"ok", "", [⟨"", "", "", 0⟩]⟩) }

/-- envOk with the record-add endpoint answering HTTP 201 (a 2xx status
that is not 200) with a well-formed body. -/
def envAdd201 : Env :=
  { envOk with dnsTxtAddR := Remote.resp 201 (Except.ok [("response", JVal.str "REC-9")]) }

/-- envOk with the record-add endpoint answering 200 with `response` equal
to the empty string. -/
def envAddEmptyID : Env :=
  { envOk with dnsTxtAddR := Remote.resp 200 (Except.ok [("response", JVal.str "")]) }

/-- envOk with the login endpoint answering HTTP 500 but with a success
body. -/
def envLogin500 : Env :=
  { envOk with loginR := Remote.resp 500 (Except.ok ⟨"ok", "\"sess\""⟩) }

def envZone500 : Env :=
  { envOk with dnsZoneGetR := Remote.resp 500 (Except.ok ⟨"ok", "", []⟩) }

def envClient500 : Env :=
  { envOk with clientGetIdR := Remote.resp 500 (Except.ok 0) }

def envAdd500 : Env :=
  { envOk with dnsTxtAddR := Remote.resp 500 (Except.ok []) }

def envGet500 : Env :=
  { envOk with dnsTxtGetR := Remote.resp 500 (Except.ok []) }

def envDelete500 : Env :=
  { envOk with dnsTxtDeleteR := Remote.resp 500 (Except.ok []) }

/-- envOk with a TXT lookup that succeeds but returns no records. -/
def envTxtEmpty : Env :=
  { envOk with dnsTxtGetR := Remote.resp 200 (Except.ok
      [("code", JVal.str "ok"), ("response", JVal.arr [])]) }

/-- envOk with a TXT lookup whose first result entry is not an object. -/
def envTxtBadEntry : Env :=
  { envOk with dnsTxtGetR := Remote.resp 200 (Except.ok
      [("code", JVal.str "ok"), ("response", JVal.arr [JVal.str "x"])]) }

/-- envOk with a TXT lookup whose first result entry has no `id` string. -/
def envTxtNoId : Env :=
  { envOk with dnsTxtGetR := Remote.resp 200 (Except.ok
      [("code", JVal.str "ok"), ("response", JVal.arr [JVal.obj []])]) }

/-- envOk with a delete call that the backend rejects. -/
def envDeleteFail : Env :=
  { envOk with dnsTxtDeleteR := Remote.resp 200 (Except.ok
      [("code", JVal.str "error")]) }

/-- envOk with a login body whose code is not `"ok"`. -/
def envLoginBadCode : Env :=
  { envOk with loginR := Remote.resp 200 (Except.ok ⟨"error", "nope"⟩) }

theorem getZoneInfo_cases (env : Env) (s d : String) :
    (∃ e, getZoneInfo env s d = ([], e) ∧ ∀ zi, e ≠ GoResult.ok zi) ∨
    (∃ origin r, getZoneInfo env s d = ([Req.dnsZoneGet s origin], r) ∧
      ∀ zi, r ≠ GoResult.ok zi) ∨
    (∃ origin su r, getZoneInfo env s d =
        ([Req.dnsZoneGet s origin, Req.clientGetId s su], r) ∧
      ∀ zi, r = GoResult.ok zi → zi.SysUserID = su) := by
  simp only [getZoneInfo]
  split
  · exact Or.inl ⟨_, rfl, by simp⟩
  split
  · exact Or.inl ⟨_, rfl, by simp⟩
  split
  · exact Or.inr (Or.inl ⟨_, _, rfl, by simp⟩)
  split
  · exact Or.inr (Or.inl ⟨_, _, rfl, by simp⟩)
  split
  · exact Or.inr (Or.inl ⟨_, _, rfl, by simp⟩)
  split
  · exact Or.inr (Or.inl ⟨_, _, rfl, by simp⟩)
  split
  · exact Or.inr (Or.inr ⟨_, _, _, rfl, by simp⟩)
  split
  · exact Or.inr (Or.inr ⟨_, _, _, rfl, by simp⟩)
  split
  · exact Or.inr (Or.inr ⟨_, _, _, rfl, by simp⟩)
  · refine Or.inr (Or.inr ⟨_, _, _, rfl, ?_⟩)
    intro zi hz
    injection hz with hz
    subst hz
    rfl

theorem getZoneInfo_ok_shape (env : Env) (s d : String) (zi : zoneInfoResponse)
    (h : (getZoneInfo env s d).2 = GoResult.ok zi) :
    ∃ origin, (getZoneInfo env s d).1 =
      [Req.dnsZoneGet s origin, Req.clientGetId s zi.SysUserID] := by
  rcases getZoneInfo_cases env s d with ⟨e, he, hne⟩ | ⟨o, r, he, hne⟩ |
    ⟨o, su, r, he, himp⟩
  · rw [he] at h; exact absurd h (hne zi)
  · rw [he] at h; exact absurd h (hne zi)
  · rw [he] at h
    have hsu := himp zi h
    exact ⟨o, by rw [he, hsu]⟩

theorem login_trace (env : Env) :
    (login env).1 = [Req.login env.ISPCUser env.ISPCPassword] := by
  unfold login
  cases env.loginR with
  | netErr m => rfl
  | resp st b =>
    cases b with
    | error m => rfl
    | ok r => by_cases h : r.code = "ok" <;> simp [h]

theorem removeTxt_trace_head (env : Env) (s d : String) :
    ∃ rest, (removeTxt env s d).1 = Req.dnsTxtGet s d "TXT" :: rest := by
  simp only [removeTxt]
  split
  · exact ⟨_, rfl⟩
  split
  · exact ⟨_, rfl⟩
  split
  · exact ⟨_, rfl⟩
  split
  · split
    · exact ⟨_, rfl⟩
    · split
      · exact ⟨_, rfl⟩
      · split
        · exact ⟨_, rfl⟩
        · split
          · exact ⟨_, rfl⟩
          · split
            · exact ⟨_, rfl⟩
            · split
              · exact ⟨_, rfl⟩
              · split
                · exact ⟨_, rfl⟩
                · split <;> exact ⟨_, rfl⟩
  · exact ⟨_, rfl⟩

/-- C1, as stated, is false: on the cleanup path the code still performs
zone resolution.  In the all-successful run `envOk`, the invocation
`cleanup a.b.c.` issues both the zone-lookup request and the
account-ID-lookup request before `removeTxt`. -/
theorem C1_counterexample :
    Req.dnsZoneGet "sess" "b.c." ∈ (main envOk 7 "st" ["prog", "cleanup", "a.b.c."]).1 ∧
    Req.clientGetId "sess" "U1" ∈ (main envOk 7 "st" ["prog", "cleanup", "a.b.c."]).1 ∧
    (main envOk 7 "st" ["prog", "cleanup", "a.b.c."]).2 = MainOutcome.success := by
  decide

/-- C1 (amended): for every invocation with action `cleanup` and a non-empty
domain, when login succeeds and zone resolution succeeds, the workflow
performs authentication, then zone resolution (the zone-lookup and
account-ID-lookup requests), then `removeTxt` on the domain name. -/
theorem C1_cleanup_auth_resolve_remove (env : Env) (nowUnix : Int)
    (nowStamp prog d s : String) (zi : zoneInfoResponse)
    (hd : d ≠ "")
    (hl : (login env).2 = GoResult.ok s)
    (hz : (getZoneInfo env s d).2 = GoResult.ok zi) :
    (main env nowUnix nowStamp [prog, "cleanup", d]).1 =
      (login env).1 ++ (getZoneInfo env s d).1 ++ (removeTxt env s d).1 ∧
    (∃ origin, Req.dnsZoneGet s origin ∈ (main env nowUnix nowStamp [prog, "cleanup", d]).1) ∧
    (removeTxt env s d).1.head? = some (Req.dnsTxtGet s d "TXT") := by
  obtain ⟨o, ho⟩ := getZoneInfo_ok_shape env s d zi hz
  obtain ⟨rest, hrest⟩ := removeTxt_trace_head env s d
  have hmain : (main env nowUnix nowStamp [prog, "cleanup", d]).1 =
      (login env).1 ++ (getZoneInfo env s d).1 ++ (removeTxt env s d).1 := by
    simp only [main, List.length_cons, List.length_nil, List.getD]
    norm_num
    simp only [hd, if_false, hl, hz]
    rcases hr : (removeTxt env s d).2 with _ | _ | _ <;> simp [hr, hl, hz]
  refine ⟨hmain, ⟨o, ?_⟩, by rw [hrest]; rfl⟩
  rw [hmain, ho]
  simp

/-- C2: a domain with exactly two labels (one separator) slips past the
`len(parts) < 2` guard and then `parts[len(parts)-3]` panics, whereas
domains with zero separators do get the invalid-domain-format error with
no network call. -/
theorem C2_short_domain_behaviour (env : Env) (s : String) :
    getZoneInfo env s "a.b" = ([], GoResult.panic "runtime error: index out of range") ∧
    getZoneInfo env s "a" = ([], GoResult.err "invalid domain format") ∧
    getZoneInfo env s "" = ([], GoResult.err "invalid domain format") :=
  ⟨rfl, rfl, rfl⟩

/-- C3: when the zone-lookup response decodes with an empty result list the
resolver panics on `Response[0]` (and a whole `present` run dies with that
panic); only a response whose first entry exists but has an empty ID is
tolerated, with empty identifiers handed to the account lookup. -/
theorem C3_empty_result_list_panics :
    getZoneInfo envZoneEmptyList "sess" "a.b.c." =
      ([Req.dnsZoneGet "sess" "b.c."], GoResult.panic "runtime error: index out of range") ∧
    (main envZoneEmptyList 7 "st" ["prog", "present", "a.b.c.", "v"]).2 =
      MainOutcome.panicked "runtime error: index out of range" ∧
    getZoneInfo envZoneEmptyID "sess" "a.b.c." =
      ([Req.dnsZoneGet "sess" "b.c.", Req.clientGetId "sess" ""],
        GoResult.ok ⟨"", "", "", 42⟩) := by
  decide

/-- C4, as stated, is false on two counts: a 200 response whose `response`
field is the empty string makes `addTxt` return a zero-value record ID with
no error, and a 201 (2xx) response with a perfectly good body is rejected,
because the code compares the status against 200 exactly. -/
theorem C4_counterexample :
    (addTxt envAddEmptyID 7 "st" "sess" 42 "S1" "Z1" "a.b.c." "v").2 = GoResult.ok "" ∧
    (addTxt envAdd201 7 "st" "sess" 42 "S1" "Z1" "a.b.c." "v").2 =
      GoResult.err "HTTP request failed with status code: 201" := by
  decide

/-- C4 (amended): `addTxt` returns a record ID iff the backend responds with
HTTP status exactly 200 and the body decodes to an object whose `response`
entry is a string; that string — which may be empty — is returned verbatim
as the record ID, and every other combination yields an error. -/
theorem C4_addTxt_ok_iff (env : Env) (nowUnix : Int) (nowStamp sessionID : String)
    (clientID : Int) (serverID zone fulldomain txtValue r : String) :
    (addTxt env nowUnix nowStamp sessionID clientID serverID zone fulldomain txtValue).2 =
        GoResult.ok r ↔
      ∃ m, env.dnsTxtAddR = Remote.resp 200 (Except.ok m) ∧
        asString (jLookup m "response") = some r := by
  simp only [addTxt]
  cases h : env.dnsTxtAddR with
  | netErr m => simp [h]
  | resp st b =>
    by_cases hst : st = 200
    · subst hst
      cases b with
      | error m => simp [h]
      | ok m =>
        cases hr : asString (jLookup m "response") with
        | none => simp [h, hr]
        | some rid => simp [h, hr]
    · simp [h, hst]

theorem append_ne_of_head_ne (a b t : String) (ca cb : Char) (la lb : List Char)
    (ha : a.data = ca :: la) (hb : b.data = cb :: lb) (hc : ca ≠ cb) :
    a ++ t ≠ b := by
  intro h
  have h2 := congrArg String.data h
  rw [String.data_append, ha, hb, List.cons_append] at h2
  injection h2 with h21 h22
  exact hc h21

theorem append_ne_of_longer (a b t : String) (h : b.length < a.length) :
    a ++ t ≠ b := by
  intro he
  have h2 := congrArg String.length he
  rw [String.length_append] at h2
  omega

theorem reverse_getD (l : List String) (i : Nat) (hi : i < l.length) :
    l.reverse.getD i "" = l.getD (l.length - 1 - i) "" := by
  rw [List.getD_eq_getElem?_getD, List.getD_eq_getElem?_getD]
  rw [List.getElem?_eq_getElem (by simpa using hi), List.getElem?_eq_getElem (by omega)]
  simp [List.getElem_reverse]

/-- C5 (amended): each of the zone-lookup, account-ID-lookup, record-add,
record-get and record-delete calls treats a non-200 HTTP status (hence any
non-2xx status) as a hard failure surfaced to the caller, and that failure
is a different error value from the application-level failures of the same
operation; the login call, however, performs no status check at all and
succeeds on any status whenever the body decodes with code `"ok"`. -/
theorem C5_status_vs_app_failures (st : Nat) (hst : st ≠ 200) :
    (∀ env ses d zb, ¬(splitDot d).length < 2 → ¬(splitDot d).length < 3 →
      env.dnsZoneGetR = Remote.resp st zb →
      (getZoneInfo env ses d).2 =
        GoResult.err ("failed to retrieve zone information: " ++ toString st)) ∧
    (∀ env ses d z e0 tl cb, ¬(splitDot d).length < 2 → ¬(splitDot d).length < 3 →
      env.dnsZoneGetR = Remote.resp 200 (Except.ok z) → z.response = e0 :: tl →
      env.clientGetIdR = Remote.resp st cb →
      (getZoneInfo env ses d).2 =
        GoResult.err ("failed to retrieve client ID: " ++ toString st)) ∧
    (∀ env n stp sid cid sv z f v ab, env.dnsTxtAddR = Remote.resp st ab →
      (addTxt env n stp sid cid sv z f v).2 =
        GoResult.err ("HTTP request failed with status code: " ++ toString st)) ∧
    (∀ env ses f gb, env.dnsTxtGetR = Remote.resp st gb →
      (removeTxt env ses f).2 =
        GoResult.err ("HTTP request failed with status code: " ++ toString st)) ∧
    (∀ env ses f m r0 rs rec rid db,
      env.dnsTxtGetR = Remote.resp 200 (Except.ok m) →
      asString (jLookup m "code") = some "ok" →
      asArr (jLookup m "response") = some (r0 :: rs) →
      asObj r0 = some rec →
      asString (jLookup rec "id") = some rid →
      env.dnsTxtDeleteR = Remote.resp st db →
      (removeTxt env ses f).2 =
        GoResult.err ("HTTP request failed with status code: " ++ toString st)) ∧
    (∀ env lr, env.loginR = Remote.resp st (Except.ok lr) → lr.code = "ok" →
      (login env).2 = GoResult.ok (trimChar lr.response '\"')) ∧
    (("HTTP request failed with status code: " ++ toString st) ≠
        "Failed to retrieve TXT record" ∧
     ("HTTP request failed with status code: " ++ toString st) ≠
        "No TXT record found" ∧
     ("HTTP request failed with status code: " ++ toString st) ≠
        "Failed to delete TXT record" ∧
     ("HTTP request failed with status code: " ++ toString st) ≠
        "failed to extract record ID from response" ∧
     ("failed to retrieve zone information: " ++ toString st) ≠
        "failed to retrieve session ID" ∧
     ("failed to retrieve client ID: " ++ toString st) ≠
        "failed to retrieve session ID") := by
  refine ⟨?_, ?_, ?_, ?_, ?_, ?_, ?_, ?_, ?_, ?_, ?_, ?_⟩
  · intro env ses d zb h2 h3 hz
    simp [getZoneInfo, h2, h3, hz, hst]
  · intro env ses d z e0 tl cb h2 h3 hz hr hc
    simp [getZoneInfo, h2, h3, hz, hr, hc, hst]
  · intro env n stp sid cid sv z f v ab ha
    simp [addTxt, ha, hst]
  · intro env ses f gb hg
    simp [removeTxt, hg, hst]
  · intro env ses f m r0 rs rec rid db hg hcode harr hobj hid hd
    simp [removeTxt, hg, hcode, harr, hobj, hid, hd, hst]
  · intro env lr hl hcode
    simp [login, hl, hcode]
  · exact append_ne_of_head_ne _ _ _ 'H' 'F' _ _ rfl rfl (by decide)
  · exact append_ne_of_head_ne _ _ _ 'H' 'N' _ _ rfl rfl (by decide)
  · exact append_ne_of_head_ne _ _ _ 'H' 'F' _ _ rfl rfl (by decide)
  · exact append_ne_of_head_ne _ _ _ 'H' 'f' _ _ rfl rfl (by decide)
  · exact append_ne_of_longer _ _ _ (by decide)
  · exact append_ne_of_longer _ _ _ (by decide)

/-- C5, as stated, is false for the login call: `login` never inspects the
HTTP status, so it succeeds on a 500 response whose body has code `"ok"`. -/
theorem C5_counterexample :
    (login envLogin500).2 = GoResult.ok "sess" ∧
    (main envLogin500 7 "st" ["prog", "cleanup", "a.b.c."]).2 = MainOutcome.success := by
  decide

/-- C5 witness: the amended statement applied at status 500 and concrete
environments. -/
theorem C5_status_vs_app_failures_witness :
    (getZoneInfo envZone500 "sess" "a.b.c.").2 =
      GoResult.err "failed to retrieve zone information: 500" ∧
    (getZoneInfo envClient500 "sess" "a.b.c.").2 =
      GoResult.err "failed to retrieve client ID: 500" ∧
    (addTxt envAdd500 7 "st" "sess" 42 "S1" "Z1" "a.b.c." "v").2 =
      GoResult.err "HTTP request failed with status code: 500" ∧
    (removeTxt envGet500 "sess" "a.b.c.").2 =
      GoResult.err "HTTP request failed with status code: 500" ∧
    (removeTxt envDelete500 "sess" "a.b.c.").2 =
      GoResult.err "HTTP request failed with status code: 500" ∧
    (login envLogin500).2 = GoResult.ok "sess" := by
  have h := C5_status_vs_app_failures 500 (by decide)
  refine ⟨?_, ?_, ?_, ?_, ?_, ?_⟩
  · exact (h.1 envZone500 "sess" "a.b.c." _ (by decide) (by decide) rfl).trans (by decide)
  · exact (h.2.1 envClient500 "sess" "a.b.c." _ ⟨"Z1", "S1", "U1", 0⟩ [] _
      (by decide) (by decide) rfl rfl rfl).trans (by decide)
  · exact (h.2.2.1 envAdd500 7 "st" "sess" 42 "S1" "Z1" "a.b.c." "v" _ rfl).trans (by decide)
  · exact (h.2.2.2.1 envGet500 "sess" "a.b.c." _ rfl).trans (by decide)
  · exact (h.2.2.2.2.1 envDelete500 "sess" "a.b.c."
      [("code", JVal.str "ok"), ("response", JVal.arr [JVal.obj [("id", JVal.str "R1")]])]
      (JVal.obj [("id", JVal.str "R1")]) [] [("id", JVal.str "R1")] "R1" _
      rfl rfl rfl rfl rfl rfl).trans (by decide)
  · exact (h.2.2.2.2.2.1 envLogin500 ⟨"ok", "\"sess\""⟩ rfl rfl).trans (by decide)

/-- C6: with a 200-status `dns_txt_get` response whose code is `"ok"`,
an empty result list (or a malformed first entry) produces the
record-not-found family of errors, all distinct from the error produced
when the delete call itself is rejected by the backend. -/
theorem C6_notfound_vs_delete_rejection :
    (∀ env s d m, env.dnsTxtGetR = Remote.resp 200 (Except.ok m) →
      asString (jLookup m "code") = some "ok" →
      (asArr (jLookup m "response") = none ∨ asArr (jLookup m "response") = some []) →
      (removeTxt env s d).2 = GoResult.err "No TXT record found") ∧
    (∀ env s d m r0 rs, env.dnsTxtGetR = Remote.resp 200 (Except.ok m) →
      asString (jLookup m "code") = some "ok" →
      asArr (jLookup m "response") = some (r0 :: rs) → asObj r0 = none →
      (removeTxt env s d).2 = GoResult.err "Invalid record format") ∧
    (∀ env s d m r0 rs rec, env.dnsTxtGetR = Remote.resp 200 (Except.ok m) →
      asString (jLookup m "code") = some "ok" →
      asArr (jLookup m "response") = some (r0 :: rs) → asObj r0 = some rec →
      asString (jLookup rec "id") = none →
      (removeTxt env s d).2 = GoResult.err "Failed to extract record ID") ∧
    (∀ env s d m r0 rs rec rid m2, env.dnsTxtGetR = Remote.resp 200 (Except.ok m) →
      asString (jLookup m "code") = some "ok" →
      asArr (jLookup m "response") = some (r0 :: rs) → asObj r0 = some rec →
      asString (jLookup rec "id") = some rid →
      env.dnsTxtDeleteR = Remote.resp 200 (Except.ok m2) →
      asString (jLookup m2 "code") ≠ some "ok" →
      (removeTxt env s d).2 = GoResult.err "Failed to delete TXT record") ∧
    (GoResult.err (α := Unit) "No TXT record found" ≠
        GoResult.err "Failed to delete TXT record" ∧
      GoResult.err (α := Unit) "Invalid record format" ≠
        GoResult.err "Failed to delete TXT record" ∧
      GoResult.err (α := Unit) "Failed to extract record ID" ≠
        GoResult.err "Failed to delete TXT record") := by
  refine ⟨?_, ?_, ?_, ?_, by decide⟩
  · intro env s d m hg hcode harr
    rcases harr with harr | harr <;> simp [removeTxt, hg, hcode, harr]
  · intro env s d m r0 rs hg hcode harr hobj
    simp [removeTxt, hg, hcode, harr, hobj]
  · intro env s d m r0 rs rec hg hcode harr hobj hid
    simp [removeTxt, hg, hcode, harr, hobj, hid]
  · intro env s d m r0 rs rec rid m2 hg hcode harr hobj hid hdel hm2
    simp [removeTxt, hg, hcode, harr, hobj, hid, hdel, hm2]

/-- C6 witness: the four outcomes at concrete environments. -/
theorem C6_notfound_vs_delete_rejection_witness :
    (removeTxt envTxtEmpty "sess" "a.b.c.").2 = GoResult.err "No TXT record found" ∧
    (removeTxt envTxtBadEntry "sess" "a.b.c.").2 = GoResult.err "Invalid record format" ∧
    (removeTxt envTxtNoId "sess" "a.b.c.").2 = GoResult.err "Failed to extract record ID" ∧
    (removeTxt envDeleteFail "sess" "a.b.c.").2 = GoResult.err "Failed to delete TXT record" := by
  have h := C6_notfound_vs_delete_rejection
  refine ⟨?_, ?_, ?_, ?_⟩
  · exact h.1 envTxtEmpty "sess" "a.b.c." _ rfl rfl (Or.inr rfl)
  · exact h.2.1 envTxtBadEntry "sess" "a.b.c." _ (JVal.str "x") [] rfl rfl rfl rfl
  · exact h.2.2.1 envTxtNoId "sess" "a.b.c." _ (JVal.obj []) [] [] rfl rfl rfl rfl rfl
  · exact h.2.2.2.1 envDeleteFail "sess" "a.b.c." _
      (JVal.obj [("id", JVal.str "R1")]) [] [("id", JVal.str "R1")] "R1" _
      rfl rfl rfl rfl rfl rfl (by decide)

/-- C7: authentication succeeds iff the decoded login body's `code` equals
exactly `"ok"`; on success the session ID is the `response` field with
surrounding double-quote characters stripped; any other code, a body that
fails to decode, or a transport failure yields an error and no session. -/
theorem C7_login_code_ok (env : Env) :
    ((∃ sid, (login env).2 = GoResult.ok sid) ↔
      (∃ st r, env.loginR = Remote.resp st (Except.ok r) ∧ r.code = "ok")) ∧
    (∀ st r, env.loginR = Remote.resp st (Except.ok r) → r.code = "ok" →
      (login env).2 = GoResult.ok (trimChar r.response '\"')) ∧
    (∀ st r, env.loginR = Remote.resp st (Except.ok r) → r.code ≠ "ok" →
      (login env).2 = GoResult.err "failed to retrieve session ID") ∧
    (∀ st m, env.loginR = Remote.resp st (Except.error m) →
      (login env).2 = GoResult.err m) ∧
    (∀ m, env.loginR = Remote.netErr m → (login env).2 = GoResult.err m) := by
  refine ⟨?_, ?_, ?_, ?_, ?_⟩
  · cases hl : env.loginR with
    | netErr m => simp [login, hl]
    | resp st b =>
      cases b with
      | error m => simp [login, hl]
      | ok r =>
        by_cases hcode : r.code = "ok"
        · simp [login, hl, hcode]
          exact ⟨st, r, ⟨rfl, rfl⟩, hcode⟩
        · simp [login, hl, hcode]
  · intro st r hl hcode
    simp [login, hl, hcode]
  · intro st r hl hcode
    simp [login, hl, hcode]
  · intro st m hl
    simp [login, hl]
  · intro m hl
    simp [login, hl]

/-- C7 witness: the success and failure shapes at concrete environments. -/
theorem C7_login_code_ok_witness :
    (login envOk).2 = GoResult.ok "sess" ∧
    (login envLoginBadCode).2 = GoResult.err "failed to retrieve session ID" :=
  ⟨((C7_login_code_ok envOk).2.1 200 ⟨"ok", "\"sess\""⟩ rfl rfl).trans (by decide),
   (C7_login_code_ok envLoginBadCode).2.2.1 200 ⟨"error", "nope"⟩ rfl (by decide)⟩

theorem getZoneInfo_trace_head (env : Env) (s d : String)
    (h2 : ¬(splitDot d).length < 2) (h3 : ¬(splitDot d).length < 3) :
    ∃ rest, (getZoneInfo env s d).1 =
      Req.dnsZoneGet s ((splitDot d).getD ((splitDot d).length - 3) "" ++ "." ++
        (splitDot d).getD ((splitDot d).length - 2) "" ++ ".") :: rest := by
  simp only [getZoneInfo, if_neg h2, if_neg h3]
  repeat' split
  all_goals exact ⟨_, rfl⟩

/-- C8: for every domain whose dot-split has at least 3 labels, the first
request issued by zone resolution is the zone lookup keyed by the
third-from-last label, a separator, the second-from-last label, and a
trailing separator. -/
theorem C8_apex_candidate_sent (env : Env) (s d : String)
    (h3 : 3 ≤ (splitDot d).length) :
    (getZoneInfo env s d).1.head? = some (Req.dnsZoneGet s
      ((splitDot d).reverse.getD 2 "" ++ "." ++
        (splitDot d).reverse.getD 1 "" ++ ".")) := by
  have h2' : ¬(splitDot d).length < 2 := by omega
  have h3' : ¬(splitDot d).length < 3 := by omega
  obtain ⟨rest, hr⟩ := getZoneInfo_trace_head env s d h2' h3'
  have e2 : (splitDot d).reverse.getD 2 "" =
      (splitDot d).getD ((splitDot d).length - 3) "" := by
    rw [reverse_getD _ 2 (by omega),
      show (splitDot d).length - 1 - 2 = (splitDot d).length - 3 from by omega]
  have e1 : (splitDot d).reverse.getD 1 "" =
      (splitDot d).getD ((splitDot d).length - 2) "" := by
    rw [reverse_getD _ 1 (by omega),
      show (splitDot d).length - 1 - 1 = (splitDot d).length - 2 from by omega]
  rw [hr, e2, e1]
  rfl

/-- C8 witness: `foo.bar.example.com.` yields apex candidate
`example.com.` as the zone lookup key. -/
theorem C8_apex_candidate_sent_witness :
    3 ≤ (splitDot "foo.bar.example.com.").length ∧
    (getZoneInfo envOk "sess" "foo.bar.example.com.").1.head? =
      some (Req.dnsZoneGet "sess" "example.com.") :=
  ⟨by decide,
   (C8_apex_candidate_sent envOk "sess" "foo.bar.example.com." (by decide)).trans
     (by decide)⟩

/-- C1 witness: the amended cleanup behaviour at a concrete run. -/
theorem C1_cleanup_auth_resolve_remove_witness :
    ("a.b.c." : String) ≠ "" ∧
    (login envOk).2 = GoResult.ok "sess" ∧
    (getZoneInfo envOk "sess" "a.b.c.").2 = GoResult.ok ⟨"Z1", "S1", "U1", 42⟩ ∧
    ((main envOk 7 "st" ["prog", "cleanup", "a.b.c."]).1 =
        (login envOk).1 ++ (getZoneInfo envOk "sess" "a.b.c.").1 ++
          (removeTxt envOk "sess" "a.b.c.").1 ∧
      (∃ origin, Req.dnsZoneGet "sess" origin ∈
        (main envOk 7 "st" ["prog", "cleanup", "a.b.c."]).1) ∧
      (removeTxt envOk "sess" "a.b.c.").1.head? =
        some (Req.dnsTxtGet "sess" "a.b.c." "TXT")) :=
  ⟨by decide, by decide, by decide,
   C1_cleanup_auth_resolve_remove envOk 7 "st" "prog" "a.b.c." "sess"
     ⟨"Z1", "S1", "U1", 42⟩ (by decide) (by decide) (by decide)⟩

theorem addTxt_trace (env : Env) (n : Int) (stp sid : String) (cid : Int)
    (sv z f v : String) :
    (addTxt env n stp sid cid sv z f v).1 =
      [Req.dnsTxtAdd sid cid (addTxtParams (toString n) stp sv z f v) true] := by
  simp only [addTxt]
  repeat' split
  all_goals rfl

/-- C9, as stated, is false in one detail: the add-record request carries
record type `"txt"` (lower case), not `"TXT"`.  In the all-successful run
the full request trace of `present a.b.c. abc123` is explicit below. -/
theorem C9_counterexample :
    (main envOk 7 "st" ["prog", "present", "a.b.c.", "abc123"]).1 =
      [Req.login "u" "p", Req.dnsZoneGet "sess" "b.c.", Req.clientGetId "sess" "U1",
       Req.dnsTxtAdd "sess" 42
         { server_id := "S1", zone := "Z1", name := "a.b.c.", type := "txt",
           data := "abc123", aux := "0", ttl := "3600", active := "y",
           stamp := "st", serial := "7" } true] ∧
    ("txt" : String) ≠ "TXT" := by
  decide

/-- C9 (amended): for every `present` invocation (with login and zone
resolution succeeding), the add-record request carries record name equal
to the supplied fqdn, record type `"txt"` (lower case), data equal to the
supplied value, ttl `"3600"`, the active flag `"y"`, serial equal to the
current Unix epoch seconds, the formatted local timestamp as the stamp,
and the force-zone-serial-update flag set. -/
theorem C9_present_add_request (env : Env) (nowUnix : Int)
    (nowStamp prog d v s : String) (zi : zoneInfoResponse)
    (hd : d ≠ "")
    (hl : (login env).2 = GoResult.ok s)
    (hz : (getZoneInfo env s d).2 = GoResult.ok zi) :
    Req.dnsTxtAdd s zi.ClientId
      { server_id := zi.ServerID, zone := zi.ID, name := d, type := "txt",
        data := v, aux := "0", ttl := "3600", active := "y",
        stamp := nowStamp, serial := toString nowUnix } true
      ∈ (main env nowUnix nowStamp [prog, "present", d, v]).1 := by
  have hmain : (main env nowUnix nowStamp [prog, "present", d, v]).1 =
      (login env).1 ++ (getZoneInfo env s d).1 ++
        (addTxt env nowUnix nowStamp s zi.ClientId zi.ServerID zi.ID d v).1 := by
    simp only [main, List.length_cons, List.length_nil, List.getD]
    norm_num
    simp only [hd, if_false, hl, hz]
    rcases ha : (addTxt env nowUnix nowStamp s zi.ClientId zi.ServerID zi.ID d v).2
      with _ | _ | _ <;> simp [ha, hl, hz]
  rw [hmain, addTxt_trace]
  simp [addTxtParams]

/-- C9 witness: the amended statement at a concrete run. -/
theorem C9_present_add_request_witness :
    ("a.b.c." : String) ≠ "" ∧
    (login envOk).2 = GoResult.ok "sess" ∧
    (getZoneInfo envOk "sess" "a.b.c.").2 = GoResult.ok ⟨"Z1", "S1", "U1", 42⟩ ∧
    Req.dnsTxtAdd "sess" 42
      { server_id := "S1", zone := "Z1", name := "a.b.c.", type := "txt",
        data := "abc123", aux := "0", ttl := "3600", active := "y",
        stamp := "st", serial := "7" } true
      ∈ (main envOk 7 "st" ["prog", "present", "a.b.c.", "abc123"]).1 :=
  ⟨by decide, by decide, by decide,
   C9_present_add_request envOk 7 "st" "prog" "a.b.c." "abc123" "sess"
     ⟨"Z1", "S1", "U1", 42⟩ (by decide) (by decide) (by decide)⟩

/-- C10: an invocation whose action is neither `present` nor `cleanup` but
which passes argument validation still performs authentication and zone
resolution, mutates no record (no add, TXT-lookup, or delete request is
ever issued), and exits successfully when those two steps succeed. -/
theorem C10_unknown_action (env : Env) (nowUnix : Int)
    (nowStamp prog a d s : String) (zi : zoneInfoResponse)
    (hp : a ≠ "present") (hc : a ≠ "cleanup") (hd : d ≠ "")
    (hl : (login env).2 = GoResult.ok s)
    (hz : (getZoneInfo env s d).2 = GoResult.ok zi) :
    main env nowUnix nowStamp [prog, a, d] =
      ((login env).1 ++ (getZoneInfo env s d).1, MainOutcome.success) ∧
    Req.login env.ISPCUser env.ISPCPassword ∈
      (main env nowUnix nowStamp [prog, a, d]).1 ∧
    (∃ origin, Req.dnsZoneGet s origin ∈ (main env nowUnix nowStamp [prog, a, d]).1) ∧
    (∀ sid cid p u, Req.dnsTxtAdd sid cid p u ∉
      (main env nowUnix nowStamp [prog, a, d]).1) ∧
    (∀ sid n t, Req.dnsTxtGet sid n t ∉ (main env nowUnix nowStamp [prog, a, d]).1) ∧
    (∀ sid rid u, Req.dnsTxtDelete sid rid u ∉
      (main env nowUnix nowStamp [prog, a, d]).1) := by
  obtain ⟨o, ho⟩ := getZoneInfo_ok_shape env s d zi hz
  have hmain : main env nowUnix nowStamp [prog, a, d] =
      ((login env).1 ++ (getZoneInfo env s d).1, MainOutcome.success) := by
    simp only [main, List.length_cons, List.length_nil, List.getD]
    norm_num
    simp [hp, hc, hd, hl, hz]
  refine ⟨hmain, ?_, ⟨o, ?_⟩, ?_, ?_, ?_⟩
  · rw [hmain]
    simp [login_trace]
  · rw [hmain]
    simp [ho]
  · intro sid cid p u
    rw [hmain]
    simp [login_trace, ho]
  · intro sid n t
    rw [hmain]
    simp [login_trace, ho]
  · intro sid rid u
    rw [hmain]
    simp [login_trace, ho]

/-- C10 witness: a concrete run with the unrecognised action `renew`. -/
theorem C10_unknown_action_witness :
    ("renew" : String) ≠ "present" ∧ ("renew" : String) ≠ "cleanup" ∧
    ("a.b.c." : String) ≠ "" ∧
    (login envOk).2 = GoResult.ok "sess" ∧
    (getZoneInfo envOk "sess" "a.b.c.").2 = GoResult.ok ⟨"Z1", "S1", "U1", 42⟩ ∧
    (main envOk 7 "st" ["prog", "renew", "a.b.c."] =
        ((login envOk).1 ++ (getZoneInfo envOk "sess" "a.b.c.").1,
          MainOutcome.success) ∧
      Req.login envOk.ISPCUser envOk.ISPCPassword ∈
        (main envOk 7 "st" ["prog", "renew", "a.b.c."]).1 ∧
      (∃ origin, Req.dnsZoneGet "sess" origin ∈
        (main envOk 7 "st" ["prog", "renew", "a.b.c."]).1) ∧
      (∀ sid cid p u, Req.dnsTxtAdd sid cid p u ∉
        (main envOk 7 "st" ["prog", "renew", "a.b.c."]).1) ∧
      (∀ sid n t, Req.dnsTxtGet sid n t ∉
        (main envOk 7 "st" ["prog", "renew", "a.b.c."]).1) ∧
      (∀ sid rid u, Req.dnsTxtDelete sid rid u ∉
        (main envOk 7 "st" ["prog", "renew", "a.b.c."]).1)) :=
  ⟨by decide, by decide, by decide, by decide, by decide,
   C10_unknown_action envOk 7 "st" "prog" "renew" "a.b.c." "sess"
     ⟨"Z1", "S1", "U1", 42⟩ (by decide) (by decide) (by decide) (by decide) (by decide)⟩

end ISPC
